import Mathlib

/-!
# Verification of the real-time notification layer

Shallow embedding of the WebSocket notification core of the restaurant
ordering application: the server-side connection registry and dispatcher
(`server/socket.ts`) and the client-side transport with reconnect/backoff
and listener registry (`client/src/lib/socket.ts`).

Server state is the list of `SocketClient` registrations; the dispatcher is
modelled as a pure function from an inbound message to the updated registry
plus a trace of observable events (storage calls, socket sends, log lines).
Client state is the module-level mutable state of `socket.ts` (socket,
reconnect timer, attempt counter, listener map); each handler is a pure
function returning the new state plus a trace of observable events.
-/

namespace RestaurantSocket

/-- WebSocket readyState values (`WebSocket.CONNECTING/OPEN/CLOSING/CLOSED`). -/
inductive ReadyState
  | CONNECTING
  | OPEN
  | CLOSING
  | CLOSED
deriving DecidableEq, Repr

/-! ## Server side: `server/socket.ts` -/

/-- A parsed message payload. JavaScript object fields that may be absent are
`Option`s: an absent field reads as `undefined`, modelled `none`. The opaque
`order` value of a `new-order` payload is modelled as an integer. -/
structure Payload where
  restaurantId : Option Int
  tableId : Option Int
  orderId : Option Int
  status : Option String
  order : Option Int
  customerName : Option String
  timestamp : Option String
deriving DecidableEq, Repr

/-- The payload `{}` with every field absent. -/
def Payload.empty : Payload := ⟨none, none, none, none, none, none, none⟩

/-- One entry of the server connection registry (`SocketClient` in
`server/socket.ts`): the socket handle (identified by `socketId`, with its
readyState) plus the optional declared identity. -/
structure SocketClient where
  socketId : Nat
  readyState : ReadyState
  restaurantId : Option Int
  tableId : Option Int
deriving DecidableEq, Repr

/-- The value broadcast as the outbound `payload`: either a structured record
(the inbound payload relayed as-is) or the raw opaque order value. -/
inductive OutVal
  | record (p : Payload)
  | raw (v : Option Int)
deriving DecidableEq, Repr

/-- What arrives on the server's `message` handler: either a body that
`JSON.parse` rejects, or a parsed envelope `{type, payload}`. -/
inductive Inbound
  | unparsable
  | msg (msgType : String) (payload : Payload)
deriving DecidableEq, Repr

/-- Observable effects of the server's message handling. `closedConnection`
would record the dispatcher closing a socket; the dispatcher never emits it. -/
inductive ServerEvent
  | storageUpdateOrder (orderId : Option Int) (status : Option String)
  | send (socketId : Nat) (outType : String) (payload : OutVal)
  | loggedError
  | closedConnection (socketId : Nat)
deriving DecidableEq, Repr

/-- `broadcastToRestaurant` from `server/socket.ts`: send `message` to every
client whose `restaurantId` strictly equals the key and whose socket is OPEN.
JavaScript `===` on possibly-`undefined` numbers is `Option Int` equality. -/
def broadcastToRestaurant (restaurantId : Option Int) (outType : String)
    (payload : OutVal) (clients : List SocketClient) : List ServerEvent :=
  (clients.filter (fun c =>
    c.restaurantId == restaurantId && c.readyState == ReadyState.OPEN)).map
    (fun c => ServerEvent.send c.socketId outType payload)

/-- Replace the entry at `idx` (the mutated `client` object captured by the
`message` handler's closure). -/
def updateAt (clients : List SocketClient) (idx : Nat)
    (f : SocketClient → SocketClient) : List SocketClient :=
  match clients[idx]? with
  | some c => clients.set idx (f c)
  | none => clients

/-- The server `message` handler (the `try { switch ... } catch` body in
`setupWebSocketServer`). `storageOk` says whether `storage.updateOrder`
resolves; when it rejects, the `catch` logs and nothing else happens.
Returns the updated registry and the trace of observable events. -/
def handleMessage (storageOk : Bool) (clients : List SocketClient) (idx : Nat)
    (inb : Inbound) : List SocketClient × List ServerEvent :=
  match inb with
  | Inbound.unparsable => (clients, [ServerEvent.loggedError])
  | Inbound.msg t p =>
    if t = "register-restaurant" then
      (updateAt clients idx (fun c => { c with restaurantId := p.restaurantId }), [])
    else if t = "register-table" then
      (updateAt clients idx
        (fun c => { c with restaurantId := p.restaurantId, tableId := p.tableId }), [])
    else if t = "update-order-status" then
      if storageOk then
        (clients, ServerEvent.storageUpdateOrder p.orderId p.status ::
          broadcastToRestaurant p.restaurantId "order-status-updated"
            (OutVal.record p) clients)
      else
        (clients, [ServerEvent.storageUpdateOrder p.orderId p.status,
          ServerEvent.loggedError])
    else if t = "new-order" then
      (clients, broadcastToRestaurant p.restaurantId "new-order-received"
        (OutVal.raw p.order) clients)
    else if t = "call-waiter" then
      (clients, broadcastToRestaurant p.restaurantId "waiter-requested"
        (OutVal.record p) clients)
    else
      (clients, [])

/-- The server `connection` handler: append a fresh, unregistered entry. -/
def handleConnection (socketId : Nat) (clients : List SocketClient) :
    List SocketClient :=
  clients ++ [⟨socketId, ReadyState.OPEN, none, none⟩]

/-- The server `close` handler: `clients = clients.filter(c => c.socket !== socket)`. -/
def handleClose (socketId : Nat) (clients : List SocketClient) :
    List SocketClient :=
  clients.filter (fun c => c.socketId != socketId)

/-- The socket ids targeted by the `send` events of a trace. -/
def sendTargets (evs : List ServerEvent) : List Nat :=
  evs.filterMap (fun e =>
    match e with
    | ServerEvent.send sid _ _ => some sid
    | _ => none)

/-- Number of `send` events in a trace. -/
def countSends (evs : List ServerEvent) : Nat := (sendTargets evs).length

/-- Number of `closedConnection` events in a trace. -/
def countCloses (evs : List ServerEvent) : Nat :=
  evs.countP (fun e =>
    match e with
    | ServerEvent.closedConnection _ => true
    | _ => false)

/-- The registry entries an OPEN-socket broadcast keyed by `rid` reaches. -/
def matchTargets (clients : List SocketClient) (rid : Option Int) : List Nat :=
  (clients.filter (fun c =>
    c.restaurantId == rid && c.readyState == ReadyState.OPEN)).map
    SocketClient.socketId

theorem sendTargets_broadcast (rid : Option Int) (ot : String) (pl : OutVal)
    (clients : List SocketClient) :
    sendTargets (broadcastToRestaurant rid ot pl clients) =
      matchTargets clients rid := by
  simp only [broadcastToRestaurant, sendTargets, matchTargets]
  generalize clients.filter
    (fun c => c.restaurantId == rid && c.readyState == ReadyState.OPEN) = l
  induction l with
  | nil => rfl
  | cons c rest ih => simpa [List.filterMap_cons] using ih

/-! ## Client side: `client/src/lib/socket.ts` -/

/-- A registered listener callback. `cid` models the JavaScript function
object's identity (`===` comparison); `throws` says whether invoking it
raises an exception. -/
structure Listener where
  cid : Nat
  throws : Bool
deriving DecidableEq, Repr

/-- A client-side `WebSocket` object: its identity and readyState. -/
structure CSocket where
  id : Nat
  readyState : ReadyState
deriving DecidableEq, Repr

/-- The module-level mutable state of `client/src/lib/socket.ts`: the
`socket` variable, the pending `reconnectTimer`, `reconnectAttempts`, and the
`listeners` map. A JavaScript object maps each key to a defined value or to
`undefined`: `listeners` is a map `String → Option (List Listener)` where
`none` models an absent key. `nextId` supplies fresh socket identities. -/
structure ClientState where
  socket : Option CSocket
  reconnectTimer : Bool
  reconnectAttempts : Nat
  listeners : String → Option (List Listener)
  nextId : Nat

/-- Observable effects of the client code: socket creation, `socket.close`
calls (with the close code passed, if any), scheduled reconnect timers,
the max-attempts log, outgoing registration messages, listener invocations,
and logged (caught) errors. -/
inductive ClientEvent
  | createdSocket (id : Nat)
  | closeCalled (id : Nat) (code : Option Nat)
  | scheduledRetry (delayMs : Nat)
  | maxAttemptsReached
  | sentMessage (msgType : String)
  | invoked (cid : Nat) (payload : Nat)
  | loggedCallbackError (cid : Nat)
  | loggedParseError
deriving DecidableEq, Repr

def MAX_RECONNECT_ATTEMPTS : Nat := 10

def RECONNECT_DELAY : Nat := 3000

/-- `scheduleReconnect` from `client/src/lib/socket.ts`: clear any pending
timer; stop (with a log) once `MAX_RECONNECT_ATTEMPTS` is reached; otherwise
increment the attempt count and schedule a retry after
`min(RECONNECT_DELAY * attempts, 30000)` milliseconds. -/
def scheduleReconnect (s : ClientState) : ClientState × List ClientEvent :=
  let s0 := { s with reconnectTimer := false }
  if MAX_RECONNECT_ATTEMPTS ≤ s0.reconnectAttempts then
    (s0, [ClientEvent.maxAttemptsReached])
  else
    let attempts := s0.reconnectAttempts + 1
    let delay := min (RECONNECT_DELAY * attempts) 30000
    ({ s0 with reconnectAttempts := attempts, reconnectTimer := true },
      [ClientEvent.scheduledRetry delay])

/-- `connectWebSocket`: a no-op when a socket exists and is OPEN; otherwise
close any stale socket and construct a new one (`createOk` says whether the
`new WebSocket(url)` constructor succeeds; on failure the stale value of the
`socket` variable is kept and `scheduleReconnect` runs). The `restaurantId`
and `tableId` arguments are captured by the handlers' closures and play no
role at connect time. -/
def connectWebSocket (createOk : Bool) (restaurantId tableId : Option Int)
    (s : ClientState) : ClientState × List ClientEvent :=
  match s.socket with
  | some sock =>
    if sock.readyState = ReadyState.OPEN then
      (s, [])
    else
      let s1 := { s with socket := some { sock with readyState := ReadyState.CLOSING } }
      if createOk then
        ({ s1 with
            socket := some ⟨s1.nextId, ReadyState.CONNECTING⟩
            nextId := s1.nextId + 1 },
          [ClientEvent.closeCalled sock.id none, ClientEvent.createdSocket s1.nextId])
      else
        let r := scheduleReconnect s1
        (r.1, ClientEvent.closeCalled sock.id none :: r.2)
  | none =>
    if createOk then
      ({ s with
          socket := some ⟨s.nextId, ReadyState.CONNECTING⟩
          nextId := s.nextId + 1 },
        [ClientEvent.createdSocket s.nextId])
    else
      scheduleReconnect s

/-- JavaScript truthiness of an optional number (`if (restaurantId)`):
absent and `0` are falsy. -/
def truthy : Option Int → Bool
  | none => false
  | some n => n != 0

/-- The `socket.onopen` handler: the runtime has moved the socket to OPEN;
the handler resets `reconnectAttempts` to 0 and announces the identity
captured at connect time (`register-restaurant`, then `register-table` if a
table id was also supplied). -/
def onOpen (restaurantId tableId : Option Int) (s : ClientState) :
    ClientState × List ClientEvent :=
  let s1 := { s with
    socket := s.socket.map (fun k => { k with readyState := ReadyState.OPEN })
    reconnectAttempts := 0 }
  let evs :=
    if truthy restaurantId then
      ClientEvent.sentMessage "register-restaurant" ::
        (if truthy tableId then [ClientEvent.sentMessage "register-table"] else [])
    else []
  (s1, evs)

/-- The `socket.onclose` handler: the runtime has moved the socket to CLOSED;
the handler schedules a reconnect unless the close code is 1000 or 1001. -/
def onClose (code : Nat) (s : ClientState) : ClientState × List ClientEvent :=
  let s1 := { s with
    socket := s.socket.map (fun k => { k with readyState := ReadyState.CLOSED }) }
  if code != 1000 && code != 1001 then
    scheduleReconnect s1
  else
    (s1, [])

/-- Invoke the listeners of one event type in order, isolating each callback:
`try { callback(payload) } catch (error) { console.error(...) }`. -/
def runCallbacks (payload : Nat) : List Listener → List ClientEvent
  | [] => []
  | cb :: rest =>
    (ClientEvent.invoked cb.cid payload ::
      (if cb.throws then [ClientEvent.loggedCallbackError cb.cid] else [])) ++
      runCallbacks payload rest

/-- The `socket.onmessage` handler: `parsed` is the result of `JSON.parse`
on the frame (`none` when parsing throws, handled by the surrounding
`try/catch`); message payloads are opaque, modelled as `Nat`. For a parsed
envelope, fire the listeners registered for its type, if any. -/
def onMessage (parsed : Option (String × Nat)) (s : ClientState) :
    ClientState × List ClientEvent :=
  match parsed with
  | none => (s, [ClientEvent.loggedParseError])
  | some (t, p) =>
    match s.listeners t with
    | none => (s, [])
    | some cbs => (s, runCallbacks p cbs)

/-- `addEventListener`: create the key with `[]` if absent, then push. -/
def addEventListener (event : String) (callback : Listener)
    (ls : String → Option (List Listener)) : String → Option (List Listener) :=
  fun u => if u = event then some ((ls event).getD [] ++ [callback]) else ls u

/-- `removeEventListener`: if the key exists, keep only the callbacks that
are not reference-equal to the argument; otherwise do nothing. -/
def removeEventListener (event : String) (callback : Listener)
    (ls : String → Option (List Listener)) : String → Option (List Listener) :=
  fun u =>
    if u = event then (ls event).map (fun l => l.filter (fun c => c != callback))
    else ls u

/-- `disconnectWebSocket`: close the socket with the normal-closure code 1000
and drop the reference, clear any pending reconnect timer, reset the attempt
count, and empty every existing listener list. -/
def disconnectWebSocket (s : ClientState) : ClientState × List ClientEvent :=
  let r : ClientState × List ClientEvent :=
    match s.socket with
    | some sock => ({ s with socket := none },
        [ClientEvent.closeCalled sock.id (some 1000)])
    | none => (s, [])
  ({ r.1 with
      reconnectTimer := false
      reconnectAttempts := 0
      listeners := fun u => (r.1.listeners u).map (fun _ => []) }, r.2)

/-- Number of scheduled reconnect retries in a trace. -/
def countRetries (evs : List ClientEvent) : Nat :=
  evs.countP (fun e =>
    match e with
    | ClientEvent.scheduledRetry _ => true
    | _ => false)

/-- `n` consecutive abnormal closures (close code 1006, a network failure)
with no intervening successful connection, collecting all events. -/
def closeRun : Nat → ClientState → ClientState × List ClientEvent
  | 0, s => (s, [])
  | n + 1, s =>
    let r1 := onClose 1006 s
    let r2 := closeRun n r1.1
    (r2.1, r1.2 ++ r2.2)

/-- The `(callback id, payload)` pairs of the listener invocations in a trace. -/
def invokedOf (evs : List ClientEvent) : List (Nat × Nat) :=
  evs.filterMap (fun e =>
    match e with
    | ClientEvent.invoked c q => some (c, q)
    | _ => none)

/-- `n` successive `addEventListener` calls with the same type and callback. -/
def addN : Nat → String → Listener → (String → Option (List Listener)) →
    (String → Option (List Listener))
  | 0, _, _, ls => ls
  | n + 1, t, cb, ls => addEventListener t cb (addN n t cb ls)

/-- How many occurrences of `cb` are registered under key `t`. -/
def occCount (ls : String → Option (List Listener)) (t : String)
    (cb : Listener) : Nat :=
  ((ls t).getD []).countP (fun c => c == cb)

/-- An empty listener map. -/
def emptyListeners : String → Option (List Listener) := fun _ => none

/-- A state whose socket is OPEN (used to instantiate theorems). -/
def openS : ClientState :=
  ⟨some ⟨0, ReadyState.OPEN⟩, false, 0, emptyListeners, 1⟩

/-- A state whose socket is still CONNECTING. -/
def connS : ClientState :=
  ⟨some ⟨0, ReadyState.CONNECTING⟩, false, 0, emptyListeners, 1⟩

/-- A state that has exhausted its reconnect attempts. -/
def maxedS : ClientState :=
  ⟨some ⟨0, ReadyState.OPEN⟩, false, 10, emptyListeners, 1⟩

/-! ## Supporting lemmas -/

theorem notMem_matchTargets (x : Int) (clients : List SocketClient)
    (hnd : (clients.map SocketClient.socketId).Nodup) (c : SocketClient)
    (hc : c ∈ clients) (hne : c.restaurantId ≠ some x) :
    c.socketId ∉ matchTargets clients (some x) := by
  intro hmem
  obtain ⟨c', hc', he⟩ := List.mem_map.mp hmem
  obtain ⟨hc'mem, hp⟩ := List.mem_filter.mp hc'
  have hrid : c'.restaurantId = some x := by
    have := (Bool.and_eq_true _ _).mp hp
    exact beq_iff_eq.mp this.1
  have : c' = c := List.inj_on_of_nodup_map hnd hc'mem hc he
  exact hne (this ▸ hrid)

theorem updateAt_mem (clients : List SocketClient) (idx : Nat)
    (f : SocketClient → SocketClient) (c : SocketClient)
    (hc : c ∈ updateAt clients idx f) :
    c ∈ clients ∨ ∃ c₀ ∈ clients, c = f c₀ := by
  unfold updateAt at hc
  cases h : clients[idx]? with
  | none => rw [h] at hc; exact Or.inl hc
  | some c₀ =>
    rw [h] at hc
    rcases List.mem_or_eq_of_mem_set hc with h1 | h2
    · exact Or.inl h1
    · exact Or.inr ⟨c₀, List.getElem?_mem h, h2⟩

theorem countCloses_broadcast (rid : Option Int) (ot : String) (pl : OutVal)
    (clients : List SocketClient) :
    countCloses (broadcastToRestaurant rid ot pl clients) = 0 := by
  unfold countCloses broadcastToRestaurant
  generalize clients.filter
    (fun c => c.restaurantId == rid && c.readyState == ReadyState.OPEN) = l
  induction l with
  | nil => rfl
  | cons c rest ih => simp [List.countP_cons, ih]

/-! ## The claims -/

/-- **C1.** For every broadcast keyed by a restaurant identifier `X`
(`order-status-updated`, `new-order-received`, or `waiter-requested`), no
connection whose registered `restaurantId` differs from `X` ever receives the
message; only connections registered under `X` are sent the envelope. Stated
over the dispatcher: whenever an inbound envelope carries
`payload.restaurantId = X`, no `send` event of the resulting trace targets a
registry entry whose `restaurantId` is not `X` (socket ids being distinct, as
each registry entry owns a distinct socket object). -/
theorem broadcast_restaurant_scoping_C1 (x : Int) (storageOk : Bool)
    (clients : List SocketClient) (idx : Nat) (t : String) (p : Payload)
    (hp : p.restaurantId = some x)
    (hnd : (clients.map SocketClient.socketId).Nodup) :
    ∀ c ∈ clients, c.restaurantId ≠ some x →
      c.socketId ∉ sendTargets (handleMessage storageOk clients idx (Inbound.msg t p)).2 := by
  intro c hc hne
  by_cases h1 : t = "register-restaurant"
  · subst h1; simp [handleMessage, sendTargets]
  by_cases h2 : t = "register-table"
  · subst h2; simp [handleMessage, sendTargets]
  by_cases h3 : t = "update-order-status"
  · subst h3
    cases storageOk with
    | false => simp [handleMessage, h1, h2, sendTargets]
    | true =>
      simp only [handleMessage, h1, h2, if_false, if_neg, reduceIte]
      intro hmem
      have : c.socketId ∈ sendTargets
          (broadcastToRestaurant p.restaurantId "order-status-updated"
            (OutVal.record p) clients) := by
        simpa [sendTargets, List.filterMap_cons] using hmem
      rw [sendTargets_broadcast, hp] at this
      exact notMem_matchTargets x clients hnd c hc hne this
  by_cases h4 : t = "new-order"
  · subst h4
    simp only [handleMessage, h1, h2, h3, if_false, reduceIte]
    rw [sendTargets_broadcast, hp]
    exact notMem_matchTargets x clients hnd c hc hne
  by_cases h5 : t = "call-waiter"
  · subst h5
    simp only [handleMessage, h1, h2, h3, h4, if_false, reduceIte]
    rw [sendTargets_broadcast, hp]
    exact notMem_matchTargets x clients hnd c hc hne
  · simp [handleMessage, h1, h2, h3, h4, h5, sendTargets]

/-- Witness for C1 at a concrete registry: restaurants 1 and 2 each have one
open connection; a `new-order` for restaurant 1 never reaches socket 1
(registered under restaurant 2). -/
theorem broadcast_restaurant_scoping_C1_witness :
    (1 : Nat) ∉ sendTargets
      (handleMessage true
        [⟨0, ReadyState.OPEN, some 1, none⟩, ⟨1, ReadyState.OPEN, some 2, none⟩] 0
        (Inbound.msg "new-order"
          { Payload.empty with restaurantId := some 1, order := some 42 })).2 :=
  broadcast_restaurant_scoping_C1 1 true
    [⟨0, ReadyState.OPEN, some 1, none⟩, ⟨1, ReadyState.OPEN, some 2, none⟩] 0
    "new-order" { Payload.empty with restaurantId := some 1, order := some 42 }
    rfl (by decide) ⟨1, ReadyState.OPEN, some 2, none⟩ (by decide) (by decide)

/-- **C2.** For every inbound `update-order-status` envelope, the dispatcher
calls the storage collaborator's `updateOrder` with the envelope's `orderId`
and `status` before any `order-status-updated` broadcast is emitted (the
storage call is the first event of the trace), and if that storage call fails
the trace contains no `send` event at all. -/
theorem update_order_status_storage_first_C2 (storageOk : Bool)
    (clients : List SocketClient) (idx : Nat) (p : Payload) :
    (handleMessage storageOk clients idx
        (Inbound.msg "update-order-status" p)).2.head? =
      some (ServerEvent.storageUpdateOrder p.orderId p.status) ∧
    countSends (handleMessage false clients idx
        (Inbound.msg "update-order-status" p)).2 = 0 :=
  ⟨by cases storageOk <;> rfl, rfl⟩

/-- **C6 (counterexample).** The claim says a UI-origin action's broadcast is
not delivered back to the sending connection. In the code the sender is not
excluded: with two connections registered under restaurant 1, a `new-order`
sent by the connection with socket id 0 produces a `send` event back to
socket id 0 itself. -/
theorem broadcast_echoes_sender_C6_counterexample :
    (0 : Nat) ∈ sendTargets
      (handleMessage true
        [⟨0, ReadyState.OPEN, some 1, none⟩, ⟨1, ReadyState.OPEN, some 1, none⟩] 0
        (Inbound.msg "new-order"
          { Payload.empty with restaurantId := some 1, order := some 42 })).2 := by
  decide

/-- **C6 (amended).** A UI-origin action (`new-order`, `call-waiter`, or
`update-order-status` with a successful write) is broadcast to exactly the
connections whose registered `restaurantId` matches the payload's and whose
socket is open — regardless of which connection sent it, so the sending
connection also receives the broadcast whenever it matches. -/
theorem broadcast_targets_all_matching_C6 (storageOk : Bool)
    (clients : List SocketClient) (idx : Nat) (p : Payload) :
    sendTargets (handleMessage storageOk clients idx
        (Inbound.msg "new-order" p)).2 = matchTargets clients p.restaurantId ∧
    sendTargets (handleMessage storageOk clients idx
        (Inbound.msg "call-waiter" p)).2 = matchTargets clients p.restaurantId ∧
    sendTargets (handleMessage true clients idx
        (Inbound.msg "update-order-status" p)).2 = matchTargets clients p.restaurantId := by
  refine ⟨?_, ?_, ?_⟩
  · exact sendTargets_broadcast p.restaurantId "new-order-received"
      (OutVal.raw p.order) clients
  · exact sendTargets_broadcast p.restaurantId "waiter-requested"
      (OutVal.record p) clients
  · show sendTargets (ServerEvent.storageUpdateOrder p.orderId p.status ::
      broadcastToRestaurant p.restaurantId "order-status-updated"
        (OutVal.record p) clients) = _
    rw [show sendTargets (ServerEvent.storageUpdateOrder p.orderId p.status ::
      broadcastToRestaurant p.restaurantId "order-status-updated"
        (OutVal.record p) clients) = sendTargets
        (broadcastToRestaurant p.restaurantId "order-status-updated"
          (OutVal.record p) clients) from rfl]
    exact sendTargets_broadcast p.restaurantId "order-status-updated"
      (OutVal.record p) clients

theorem invokedOf_runCallbacks (p : Nat) (l : List Listener) :
    invokedOf (runCallbacks p l) = l.map (fun cb => (cb.cid, p)) := by
  induction l with
  | nil => rfl
  | cons cb rest ih =>
    by_cases hcb : cb.throws
    · simp [runCallbacks, invokedOf, hcb, List.filterMap_append,
        List.filterMap_cons] at *
      exact ih
    · simp [runCallbacks, invokedOf, hcb, List.filterMap_append,
        List.filterMap_cons] at *
      exact ih

/-- **C7.** For every successfully parsed inbound envelope, all callbacks
registered for its type are invoked with the envelope's payload in
registration order — a callback that throws neither prevents the remaining
callbacks of that type from running (its error is caught and logged) nor
escapes the dispatch; an unparsable frame is logged and dropped. The
invocation trace equals the registered list, whatever the `throws` flags. -/
theorem listener_dispatch_isolation_C7 (s : ClientState) (t : String) (p : Nat) :
    invokedOf (onMessage (some (t, p)) s).2 =
      ((s.listeners t).getD []).map (fun cb => (cb.cid, p)) ∧
    onMessage none s = (s, [ClientEvent.loggedParseError]) := by
  refine ⟨?_, rfl⟩
  cases h : s.listeners t with
  | none => simp [onMessage, h, invokedOf]
  | some cbs => simp [onMessage, h, invokedOf_runCallbacks]

theorem countP_eq_zero_filter_bne (cb : Listener) (l : List Listener) :
    (l.filter (fun c => c != cb)).countP (fun c => c == cb) = 0 := by
  induction l with
  | nil => rfl
  | cons c rest ih =>
    by_cases hc : c = cb
    · simp [hc, List.filter_cons, ih]
    · simp [List.filter_cons, hc, List.countP_cons, ih]

/-- **C10.** A single `removeEventListener(type, cb)` call removes every
registered occurrence of `cb` for that type, not just one: for every
`n ≥ 1`, after `n` `addEventListener(type, cb)` calls followed by one
`removeEventListener(type, cb)`, zero occurrences of `cb` remain registered
for that type — removal is not a one-for-one inverse of registration. -/
theorem remove_listener_removes_all_C10 (n : Nat) (t : String) (cb : Listener)
    (ls : String → Option (List Listener)) (hn : 1 ≤ n) :
    occCount (removeEventListener t cb (addN n t cb ls)) t cb = 0 := by
  cases n with
  | zero => omega
  | succ m =>
    simp only [addN, addEventListener, removeEventListener, occCount,
      if_pos rfl, Option.map_some, Option.getD_some]
    exact countP_eq_zero_filter_bne cb _

/-- Witness for C10: two registrations of the same callback under one type,
one removal — no occurrence remains. -/
theorem remove_listener_removes_all_C10_witness :
    occCount (removeEventListener "new-order-received" ⟨7, false⟩
      (addN 2 "new-order-received" ⟨7, false⟩ emptyListeners))
      "new-order-received" ⟨7, false⟩ = 0 :=
  remove_listener_removes_all_C10 2 "new-order-received" ⟨7, false⟩
    emptyListeners (by decide)

/-- **C8 (counterexample).** The claim says every malformed inbound message
(including one missing a required payload field) is dropped without altering
the connection registry. In the code a `register-restaurant` envelope whose
payload lacks `restaurantId` still executes the assignment, overwriting the
entry's registered `restaurantId` (here: restaurant 5) with the absent
value — the registry is altered. -/
theorem malformed_message_C8_counterexample :
    (handleMessage true [⟨0, ReadyState.OPEN, some 5, none⟩] 0
        (Inbound.msg "register-restaurant" Payload.empty)).1 ≠
      [⟨0, ReadyState.OPEN, some 5, none⟩] := by
  decide

/-- **C8 (amended).** The dispatcher never throws and never closes the
connection in response to any inbound message; an unparsable body is logged
and dropped with the registry unchanged; an envelope of unknown type is
silently dropped with the registry unchanged and nothing delivered. An
envelope of known type with missing payload fields is, however, processed
with the absent values rather than dropped (for register messages this can
alter the registry entry). -/
theorem malformed_message_handling_C8 (storageOk : Bool)
    (clients : List SocketClient) (idx : Nat) :
    handleMessage storageOk clients idx Inbound.unparsable =
      (clients, [ServerEvent.loggedError]) ∧
    (∀ (t : String) (p : Payload),
      t ≠ "register-restaurant" → t ≠ "register-table" →
      t ≠ "update-order-status" → t ≠ "new-order" → t ≠ "call-waiter" →
      handleMessage storageOk clients idx (Inbound.msg t p) = (clients, [])) ∧
    (∀ inb : Inbound,
      countCloses (handleMessage storageOk clients idx inb).2 = 0) := by
  refine ⟨rfl, ?_, ?_⟩
  · intro t p h1 h2 h3 h4 h5
    simp [handleMessage, h1, h2, h3, h4, h5]
  · intro inb
    cases inb with
    | unparsable => rfl
    | msg t p =>
      by_cases h1 : t = "register-restaurant"
      · simp [handleMessage, h1, countCloses]
      by_cases h2 : t = "register-table"
      · simp [handleMessage, h1, h2, countCloses]
      by_cases h3 : t = "update-order-status"
      · subst h3
        cases storageOk with
        | false => simp [handleMessage, h1, h2, countCloses]
        | true =>
          simp only [handleMessage, h1, h2, if_false, reduceIte]
          show countCloses (ServerEvent.storageUpdateOrder p.orderId p.status ::
            broadcastToRestaurant p.restaurantId "order-status-updated"
              (OutVal.record p) clients) = 0
          simp [countCloses, List.countP_cons]
          have := countCloses_broadcast p.restaurantId "order-status-updated"
            (OutVal.record p) clients
          simpa [countCloses] using this
      by_cases h4 : t = "new-order"
      · subst h4
        simp only [handleMessage, h1, h2, h3, if_false, reduceIte]
        exact countCloses_broadcast p.restaurantId "new-order-received"
          (OutVal.raw p.order) clients
      by_cases h5 : t = "call-waiter"
      · subst h5
        simp only [handleMessage, h1, h2, h3, h4, if_false, reduceIte]
        exact countCloses_broadcast p.restaurantId "waiter-requested"
          (OutVal.record p) clients
      · simp [handleMessage, h1, h2, h3, h4, h5, countCloses]

/-- Witness for C8: an envelope of unknown type is dropped with no events
and no registry change. -/
theorem malformed_message_handling_C8_witness :
    handleMessage true [⟨0, ReadyState.OPEN, some 1, none⟩] 0
        (Inbound.msg "bogus-type" Payload.empty) =
      ([⟨0, ReadyState.OPEN, some 1, none⟩], []) :=
  (malformed_message_handling_C8 true [⟨0, ReadyState.OPEN, some 1, none⟩] 0).2.1
    "bogus-type" Payload.empty (by decide) (by decide) (by decide) (by decide)
    (by decide)

/-- The registry invariant of the spec: an entry with a set `tableId` also
has its `restaurantId` set. -/
def regInv (c : SocketClient) : Bool :=
  !c.tableId.isSome || c.restaurantId.isSome

/-- Well-formedness of an inbound message: register envelopes carry their
required payload fields (the spec's "required payload field" notion for the
two registration types). -/
def wfInbound : Inbound → Bool
  | Inbound.unparsable => true
  | Inbound.msg t p =>
    (if t = "register-restaurant" then p.restaurantId.isSome else true) &&
    (if t = "register-table" then p.restaurantId.isSome && p.tableId.isSome
     else true)

/-- **C9 (counterexample).** The claim says every reachable registry state
keeps the invariant. Reachable states include those produced by malformed
traffic: a fresh connection sending `register-table` with a payload that has
`tableId` but lacks `restaurantId` yields an entry with `tableId` set and
`restaurantId` absent. -/
theorem registry_invariant_C9_counterexample :
    (handleMessage true [⟨0, ReadyState.OPEN, none, none⟩] 0
        (Inbound.msg "register-table" { Payload.empty with tableId := some 3 })).1 =
      [⟨0, ReadyState.OPEN, none, some 3⟩] ∧
    regInv ⟨0, ReadyState.OPEN, none, some 3⟩ = false := by
  decide

/-- **C9 (amended).** Provided every register envelope carries its required
payload fields (`register-restaurant` has `restaurantId`; `register-table`
has both `restaurantId` and `tableId`), every reachable registry state keeps
the invariant: a fresh entry satisfies it, and connection arrival, message
dispatch and connection close all preserve it — `restaurantId` is set at the
same time as or earlier than `tableId`. -/
theorem registry_invariant_C9 :
    (∀ sid : Nat, regInv ⟨sid, ReadyState.OPEN, none, none⟩ = true) ∧
    (∀ (storageOk : Bool) (clients : List SocketClient) (idx : Nat)
        (inb : Inbound), wfInbound inb = true →
      (∀ c ∈ clients, regInv c = true) →
      ∀ c ∈ (handleMessage storageOk clients idx inb).1, regInv c = true) ∧
    (∀ (sid : Nat) (clients : List SocketClient),
      (∀ c ∈ clients, regInv c = true) →
      ∀ c ∈ handleClose sid clients, regInv c = true) ∧
    (∀ (sid : Nat) (clients : List SocketClient),
      (∀ c ∈ clients, regInv c = true) →
      ∀ c ∈ handleConnection sid clients, regInv c = true) := by
  refine ⟨fun sid => rfl, ?_, ?_, ?_⟩
  · intro storageOk clients idx inb hwf hinv c hc
    cases inb with
    | unparsable => exact hinv c hc
    | msg t p =>
      by_cases h1 : t = "register-restaurant"
      · subst h1
        simp only [handleMessage, if_pos rfl] at hc
        rcases updateAt_mem clients idx _ c hc with hmem | ⟨c₀, _, rfl⟩
        · exact hinv c hmem
        · have hrid : p.restaurantId.isSome = true := by
            simpa [wfInbound] using hwf
          simp [regInv, hrid]
      by_cases h2 : t = "register-table"
      · subst h2
        simp only [handleMessage, h1, if_false, if_pos rfl, reduceIte] at hc
        rcases updateAt_mem clients idx _ c hc with hmem | ⟨c₀, _, rfl⟩
        · exact hinv c hmem
        · have hrid : p.restaurantId.isSome = true := by
            simp [wfInbound, h1] at hwf
            exact hwf.1
          simp [regInv, hrid]
      by_cases h3 : t = "update-order-status"
      · subst h3
        cases storageOk with
        | false => simp only [handleMessage, h1, h2, if_false, reduceIte] at hc
                   exact hinv c hc
        | true => simp only [handleMessage, h1, h2, if_false, reduceIte] at hc
                  exact hinv c hc
      by_cases h4 : t = "new-order"
      · subst h4
        simp only [handleMessage, h1, h2, h3, if_false, reduceIte] at hc
        exact hinv c hc
      by_cases h5 : t = "call-waiter"
      · subst h5
        simp only [handleMessage, h1, h2, h3, h4, if_false, reduceIte] at hc
        exact hinv c hc
      · simp only [handleMessage, h1, h2, h3, h4, h5, if_false, reduceIte] at hc
        exact hinv c hc
  · intro sid clients hinv c hc
    exact hinv c (List.mem_of_mem_filter hc)
  · intro sid clients hinv c hc
    unfold handleConnection at hc
    rcases List.mem_append.mp hc with hmem | hnew
    · exact hinv c hmem
    · rcases List.mem_singleton.mp hnew with rfl
      rfl

/-- Witness for C9: dispatching a well-formed `register-table` to a fresh
entry yields an entry satisfying the invariant. -/
theorem registry_invariant_C9_witness :
    regInv ⟨0, ReadyState.OPEN, some 7, some 3⟩ = true :=
  registry_invariant_C9.2.1 true [⟨0, ReadyState.OPEN, none, none⟩] 0
    (Inbound.msg "register-table"
      { Payload.empty with restaurantId := some 7, tableId := some 3 })
    (by decide) (by decide) ⟨0, ReadyState.OPEN, some 7, some 3⟩ (by decide)

theorem countRetries_append (a b : List ClientEvent) :
    countRetries (a ++ b) = countRetries a + countRetries b :=
  List.countP_append _ _ _

theorem onClose_abnormal_step (s : ClientState) :
    (MAX_RECONNECT_ATTEMPTS ≤ s.reconnectAttempts →
      (onClose 1006 s).1.reconnectAttempts = s.reconnectAttempts ∧
      countRetries (onClose 1006 s).2 = 0) ∧
    (s.reconnectAttempts < MAX_RECONNECT_ATTEMPTS →
      (onClose 1006 s).1.reconnectAttempts = s.reconnectAttempts + 1 ∧
      countRetries (onClose 1006 s).2 = 1) := by
  constructor
  · intro h
    simp [onClose, scheduleReconnect, countRetries, h]
  · intro h
    have h' : ¬ MAX_RECONNECT_ATTEMPTS ≤ s.reconnectAttempts := by omega
    simp [onClose, scheduleReconnect, countRetries, h']

theorem closeRun_retries_le (n : Nat) (s : ClientState) :
    countRetries (closeRun n s).2 ≤
      MAX_RECONNECT_ATTEMPTS - s.reconnectAttempts := by
  induction n generalizing s with
  | zero => simp [closeRun, countRetries]
  | succ n ih =>
    show countRetries ((onClose 1006 s).2 ++ (closeRun n (onClose 1006 s).1).2) ≤ _
    rw [countRetries_append]
    by_cases h : MAX_RECONNECT_ATTEMPTS ≤ s.reconnectAttempts
    · obtain ⟨ha, hc⟩ := (onClose_abnormal_step s).1 h
      have h2 := ih (onClose 1006 s).1
      rw [ha] at h2
      omega
    · have hlt : s.reconnectAttempts < MAX_RECONNECT_ATTEMPTS := by omega
      obtain ⟨ha, hc⟩ := (onClose_abnormal_step s).2 hlt
      have h2 := ih (onClose 1006 s).1
      rw [ha] at h2
      have hb : MAX_RECONNECT_ATTEMPTS = 10 := rfl
      omega

/-- **C4.** For any sequence of `n` consecutive abnormal closures with no
intervening successful connection, no more than `MAX_RECONNECT_ATTEMPTS`
(10) reconnect retries are ever scheduled, and the reconnect attempt count
is reset to zero on every successful connection open. -/
theorem reconnect_bound_C4 :
    (∀ (n : Nat) (s : ClientState),
      countRetries (closeRun n s).2 ≤ MAX_RECONNECT_ATTEMPTS) ∧
    (∀ (restaurantId tableId : Option Int) (s : ClientState),
      ((onOpen restaurantId tableId s).1).reconnectAttempts = 0) := by
  constructor
  · intro n s
    have := closeRun_retries_le n s
    omega
  · intro rid tid s
    rfl

/-- **C3 (counterexample).** The claim says every closure whose code differs
from the normal-closure code (1000) triggers a scheduled reconnect. Two
closures refute it: a closure with code 1001 (≠ 1000) schedules nothing, and
with the attempt count already at `MAX_RECONNECT_ATTEMPTS` a closure with
code 1006 (≠ 1000) also schedules nothing. -/
theorem closure_reconnect_C3_counterexample :
    countRetries (onClose 1001 openS).2 = 0 ∧
    countRetries (onClose 1006 maxedS).2 = 0 := by
  decide

/-- **C3 (amended).** Calling `disconnect` never triggers a reconnect
attempt: it schedules no retry, leaves no pending reconnect timer, and closes
the socket with the distinguished normal-closure code 1000; a closure with
code 1000 or 1001 never schedules a retry, in any state; and a closure whose
code is neither 1000 nor 1001 schedules exactly one retry, provided fewer
than `MAX_RECONNECT_ATTEMPTS` attempts have already been made. -/
theorem closure_reconnect_C3 :
    (∀ s : ClientState, countRetries (disconnectWebSocket s).2 = 0 ∧
      (disconnectWebSocket s).1.reconnectTimer = false) ∧
    (∀ (s : ClientState) (sock : CSocket), s.socket = some sock →
      (disconnectWebSocket s).2 = [ClientEvent.closeCalled sock.id (some 1000)]) ∧
    (∀ s : ClientState, countRetries (onClose 1000 s).2 = 0 ∧
      countRetries (onClose 1001 s).2 = 0) ∧
    (∀ (s : ClientState) (code : Nat), code ≠ 1000 → code ≠ 1001 →
      s.reconnectAttempts < MAX_RECONNECT_ATTEMPTS →
      countRetries (onClose code s).2 = 1) := by
  refine ⟨?_, ?_, ?_, ?_⟩
  · intro s
    cases hs : s.socket <;> simp [disconnectWebSocket, hs, countRetries]
  · intro s sock hs
    simp [disconnectWebSocket, hs]
  · intro s
    exact ⟨rfl, rfl⟩
  · intro s code h1 h2 hlt
    have hcond : (code != 1000 && code != 1001) = true := by
      simp [h1, h2]
    have h' : ¬ MAX_RECONNECT_ATTEMPTS ≤ s.reconnectAttempts := by omega
    simp [onClose, hcond, scheduleReconnect, countRetries, h']

/-- Witness for C3: from a freshly connected state, disconnecting schedules
nothing, and an abnormal closure with code 1006 schedules exactly one retry. -/
theorem closure_reconnect_C3_witness :
    countRetries (disconnectWebSocket openS).2 = 0 ∧
    (disconnectWebSocket openS).2 = [ClientEvent.closeCalled 0 (some 1000)] ∧
    countRetries (onClose 1006 openS).2 = 1 :=
  ⟨(closure_reconnect_C3.1 openS).1,
    closure_reconnect_C3.2.1 openS ⟨0, ReadyState.OPEN⟩ rfl,
    closure_reconnect_C3.2.2.2 openS 1006 (by decide) (by decide) (by decide)⟩

/-- **C5 (counterexample).** The claim says calling `connect` while the
transport is connecting-or-connected is a no-op creating no new socket. When
the existing socket is still CONNECTING (not yet OPEN), the guard does not
fire: the stale socket is closed and a brand-new socket is created. -/
theorem connect_idempotent_C5_counterexample :
    connS.socket.map CSocket.readyState = some ReadyState.CONNECTING ∧
    (connectWebSocket true none none connS).2 =
      [ClientEvent.closeCalled 0 none, ClientEvent.createdSocket 1] := by
  decide

/-- **C5 (amended).** Calling `connect` while a socket exists and is OPEN is
a no-op that creates no new socket; calling it while the socket is still
CONNECTING closes the stale socket and creates exactly one new socket, which
becomes the single underlying socket afterwards. -/
theorem connect_idempotent_C5 (createOk : Bool) (restaurantId tableId : Option Int)
    (s : ClientState) (sock : CSocket) (hs : s.socket = some sock) :
    (sock.readyState = ReadyState.OPEN →
      connectWebSocket createOk restaurantId tableId s = (s, [])) ∧
    (sock.readyState = ReadyState.CONNECTING →
      (connectWebSocket true restaurantId tableId s).2 =
        [ClientEvent.closeCalled sock.id none,
          ClientEvent.createdSocket s.nextId] ∧
      (connectWebSocket true restaurantId tableId s).1.socket =
        some ⟨s.nextId, ReadyState.CONNECTING⟩) := by
  constructor
  · intro h
    simp [connectWebSocket, hs, h]
  · intro h
    simp [connectWebSocket, hs, h]

/-- Witness for C5: a connect on an OPEN-socket state is a no-op, and a
connect on a CONNECTING-socket state replaces the socket. -/
theorem connect_idempotent_C5_witness :
    connectWebSocket true none none openS = (openS, []) ∧
    (connectWebSocket true none none connS).1.socket =
      some ⟨1, ReadyState.CONNECTING⟩ :=
  ⟨(connect_idempotent_C5 true none none openS ⟨0, ReadyState.OPEN⟩ rfl).1 rfl,
    ((connect_idempotent_C5 true none none connS ⟨0, ReadyState.CONNECTING⟩
      rfl).2 rfl).2⟩

end RestaurantSocket
